import Mathlib

/-!
Shallow embedding of the CricclubsAI match scoring core, translated from
the repository sources:

- models.py : entity shapes (Match, Inning, Delivery) and the enums
  MatchStatus and TossDecision; team, player, batsman and bowler rows are
  referenced only through their integer ids, so they are embedded as Nat.
- crud.py : update_match_toss (toss resolution, which creates the two
  inning rows) and record_delivery (ball-by-ball scoring and the
  completion evaluation).
- main.py : the record_toss endpoint check that the toss winner is one of
  the two teams of the match (the check lives in the caller, not in the
  crud core).

The database session is embedded as a MatchState value holding one match
row together with its inning rows (in creation order, ids 1 and 2 as
assigned by the autoincrement on first flush) and its delivery rows.
A crud call that returns None in Python is embedded as none; a call that
commits is embedded as some of the updated state.  Integer columns that
can receive caller supplied values (runs_scored, total_runs) are embedded
as Int; counters that the core only increments from zero are embedded as
Nat.
-/

namespace Cric

/-- MatchStatus enum from models.py. -/
inductive MatchStatus where
  | SCHEDULED
  | LIVE
  | COMPLETED
  | ABANDONED
deriving DecidableEq

/-- TossDecision enum from models.py. -/
inductive TossDecision where
  | BAT
  | FIELD
deriving DecidableEq

/-- Match row from models.py (the columns the scoring core reads or writes). -/
structure Match where
  id : Nat
  team1_id : Nat
  team2_id : Nat
  status : MatchStatus
  toss_winner_id : Option Nat
  toss_decision : Option TossDecision
  winner_id : Option Nat
deriving DecidableEq

/-- Inning row from models.py. -/
structure Inning where
  id : Nat
  match_id : Nat
  batting_team_id : Nat
  bowling_team_id : Nat
  total_runs : Int
  wickets : Nat
  overs_bowled : Nat
  balls_bowled : Nat
  is_completed : Bool
deriving DecidableEq

/-- Delivery row from models.py. -/
structure Delivery where
  inning_id : Nat
  batsman_id : Nat
  bowler_id : Nat
  runs_scored : Int
  is_extra : Bool
  extra_type : Option String
  is_wicket : Bool
  wicket_type : Option String
deriving DecidableEq

/-- DeliveryCreate input schema from schemas.py. -/
structure DeliveryCreate where
  inning_id : Nat
  batsman_id : Nat
  bowler_id : Nat
  runs_scored : Int
  is_wicket : Bool
  is_extra : Bool
  wicket_type : Option String
deriving DecidableEq

/-- TossData input schema from schemas.py. -/
structure TossData where
  toss_winner_id : Nat
  decision : TossDecision
deriving DecidableEq

/-- One match with its inning rows (creation order) and delivery rows:
the slice of the database session that the scoring core touches. -/
structure MatchState where
  mtch : Match
  innings : List Inning
  deliveries : List Delivery
deriving DecidableEq

/-- A freshly created match (crud.create_match plus the model defaults):
status Scheduled, no toss data, no winner, no innings, no deliveries. -/
def create_match (id t1 t2 : Nat) : MatchState :=
  { mtch := { id := id, team1_id := t1, team2_id := t2,
              status := MatchStatus.SCHEDULED,
              toss_winner_id := none, toss_decision := none, winner_id := none },
    innings := [], deliveries := [] }

/-- The team that bats first, from crud.update_match_toss: the toss loser
is team2 when the toss winner equals team1, otherwise team1; with
decision Bat the toss winner bats first, with Field the loser does. -/
def firstBatTeam (m : Match) (td : TossData) : Nat :=
  let toss_loser_id := if td.toss_winner_id = m.team1_id then m.team2_id else m.team1_id
  match td.decision with
  | TossDecision.BAT => td.toss_winner_id
  | TossDecision.FIELD => toss_loser_id

/-- The team that bowls first, from crud.update_match_toss. -/
def firstBowlTeam (m : Match) (td : TossData) : Nat :=
  let toss_loser_id := if td.toss_winner_id = m.team1_id then m.team2_id else m.team1_id
  match td.decision with
  | TossDecision.BAT => toss_loser_id
  | TossDecision.FIELD => td.toss_winner_id

/-- crud.update_match_toss: fails (None) when the match id does not
resolve or when inning rows already exist; otherwise records the toss
fields and creates both inning rows in one commit, the first batting
side as inning id 1 and the swapped pair as inning id 2, both with
zeroed counters and is_completed false (the model defaults). -/
def update_match_toss (st : MatchState) (match_id : Nat) (toss_data : TossData) :
    Option MatchState :=
  if st.mtch.id ≠ match_id then none
  else if st.innings ≠ [] then none
  else
    some { mtch := { st.mtch with
                     toss_winner_id := some toss_data.toss_winner_id,
                     toss_decision := some toss_data.decision },
           innings :=
             [ { id := 1, match_id := match_id,
                 batting_team_id := firstBatTeam st.mtch toss_data,
                 bowling_team_id := firstBowlTeam st.mtch toss_data,
                 total_runs := 0, wickets := 0, overs_bowled := 0,
                 balls_bowled := 0, is_completed := false },
               { id := 2, match_id := match_id,
                 batting_team_id := firstBowlTeam st.mtch toss_data,
                 bowling_team_id := firstBatTeam st.mtch toss_data,
                 total_runs := 0, wickets := 0, overs_bowled := 0,
                 balls_bowled := 0, is_completed := false } ],
           deliveries := st.deliveries }

/-- main.py record_toss endpoint: 404 when the match id does not resolve,
400 when the toss winner is not one of the two teams, otherwise it calls
the crud core. -/
def record_toss (st : MatchState) (match_id : Nat) (toss_data : TossData) :
    Option MatchState :=
  if st.mtch.id ≠ match_id then none
  else if toss_data.toss_winner_id ≠ st.mtch.team1_id ∧
          toss_data.toss_winner_id ≠ st.mtch.team2_id then none
  else update_match_toss st match_id toss_data

/-- Steps 3 and 4 of crud.record_delivery: add runs_scored to total_runs,
one extra penalty run when is_extra, one wicket when is_wicket, and for a
legal (non extra) ball advance balls_bowled, rolling a completed set of
six balls into overs_bowled. -/
def applyDeliveryCounters (i : Inning) (d : DeliveryCreate) : Inning :=
  let i1 := { i with total_runs := i.total_runs + d.runs_scored }
  let i2 := if d.is_extra then { i1 with total_runs := i1.total_runs + 1 } else i1
  let i3 := if d.is_wicket then { i2 with wickets := i2.wickets + 1 } else i2
  if d.is_extra then i3
  else
    let i4 := { i3 with balls_bowled := i3.balls_bowled + 1 }
    if i4.balls_bowled = 6 then
      { i4 with overs_bowled := i4.overs_bowled + 1, balls_bowled := 0 }
    else i4

/-- Step 5 of crud.record_delivery: a Scheduled match goes Live on any
recorded ball. -/
def markLiveIfScheduled (m : Match) : Match :=
  if m.status = MatchStatus.SCHEDULED then { m with status := MatchStatus.LIVE } else m

/-- Python truthiness of match.winner_id used on line 170 of crud.py:
not winner_id is true for None and for 0. -/
def winnerFalsy : Option Nat → Bool
  | none => true
  | some n => n == 0

/-- Step 6 of crud.record_delivery, the completion evaluation run against
the already mutated inning i: natural end at ten wickets or twenty overs;
for the non first inning a chase past firstScore ends the inning at once
and sets winner and Completed; a naturally finished non first inning with
no winner yet compares final scores, assigns the winner for either strict
inequality, assigns none for a tie, and marks the match Completed.
Returns the stored inning and the stored match row. -/
def evalCompletion (m : Match) (i : Inning) (firstScore : Int) (is_first : Bool) :
    Inning × Match :=
  let is_over0 : Bool := decide (10 ≤ i.wickets) || decide (20 ≤ i.overs_bowled)
  let chase : Bool := !is_first && decide (firstScore < i.total_runs)
  let is_over : Bool := is_over0 || chase
  let m2 := if chase then
      { m with winner_id := some i.batting_team_id, status := MatchStatus.COMPLETED }
    else m
  if is_over then
    let i5 := { i with is_completed := true }
    let m3 :=
      if !is_first && winnerFalsy m2.winner_id then
        let mw := if firstScore < i5.total_runs then
            { m2 with winner_id := some i5.batting_team_id }
          else if i5.total_runs < firstScore then
            { m2 with winner_id := some i5.bowling_team_id }
          else m2
        { mw with status := MatchStatus.COMPLETED }
      else m2
    (i5, m3)
  else (i, m2)

/-- Lookup of the inning row targeted by a delivery, from line 110 of
crud.py. -/
def targetInning? (st : MatchState) (did : Nat) : Option Inning :=
  st.innings.find? (fun i => i.id == did)

/-- The first created inning of a list of inning rows: the row with the
least id, the first such row on equal ids, mirroring sorted(match.innings,
key id)[0] on line 156 of crud.py. -/
def minByIdFirst : List Inning → Option Inning
  | [] => none
  | i :: rest => some (rest.foldl (fun acc j => if j.id < acc.id then j else acc) i)

/-- crud.record_delivery: fails (None) when the inning does not resolve,
when it belongs to another match, when the match is already Completed or
when the inning is already completed; otherwise appends the delivery row,
applies the scoring counters, marks a Scheduled match Live and runs the
completion evaluation against the mutated inning, committing everything
at once. -/
def record_delivery (st : MatchState) (match_id : Nat) (d : DeliveryCreate) :
    Option MatchState :=
  match targetInning? st d.inning_id with
  | none => none
  | some inning =>
    if inning.match_id ≠ match_id then none
    else if st.mtch.status = MatchStatus.COMPLETED ∨ inning.is_completed = true then none
    else
      let db_delivery : Delivery :=
        { inning_id := d.inning_id, batsman_id := d.batsman_id,
          bowler_id := d.bowler_id, runs_scored := d.runs_scored,
          is_extra := d.is_extra, extra_type := none,
          is_wicket := d.is_wicket, wicket_type := d.wicket_type }
      let i4 := applyDeliveryCounters inning d
      let m1 := markLiveIfScheduled st.mtch
      let innings1 := st.innings.map (fun i => if i.id = d.inning_id then i4 else i)
      match minByIdFirst innings1 with
      | none => none
      | some fi =>
        let p := evalCompletion m1 i4 fi.total_runs (i4.id == fi.id)
        some { mtch := p.2,
               innings := st.innings.map (fun i => if i.id = d.inning_id then p.1 else i),
               deliveries := st.deliveries ++ [db_delivery] }

/-- States reachable through the crud core: a fresh match between two
distinct teams, toss resolution steps and delivery recording steps. -/
inductive Reachable : MatchState → Prop
  | init (id t1 t2 : Nat) (h : t1 ≠ t2) : Reachable (create_match id t1 t2)
  | toss (st st' : MatchState) (mid : Nat) (td : TossData) :
      Reachable st → update_match_toss st mid td = some st' → Reachable st'
  | deliver (st st' : MatchState) (mid : Nat) (d : DeliveryCreate) :
      Reachable st → record_delivery st mid d = some st' → Reachable st'

/-- Caller discipline for delivery ordering: when the state holds its two
inning rows and the delivery targets the second created one, the first
created inning must already be completed. -/
def orderedOK (st : MatchState) (d : DeliveryCreate) : Bool :=
  match st.innings with
  | [a, b] => !(d.inning_id == b.id) || a.is_completed
  | _ => true

/-- States reachable when every caller respects the delivery ordering
discipline orderedOK; the crud core itself never checks it. -/
inductive ReachableOrdered : MatchState → Prop
  | init (id t1 t2 : Nat) (h : t1 ≠ t2) : ReachableOrdered (create_match id t1 t2)
  | toss (st st' : MatchState) (mid : Nat) (td : TossData) :
      ReachableOrdered st → update_match_toss st mid td = some st' →
      ReachableOrdered st'
  | deliver (st st' : MatchState) (mid : Nat) (d : DeliveryCreate) :
      ReachableOrdered st → orderedOK st d = true →
      record_delivery st mid d = some st' → ReachableOrdered st'

end Cric

namespace Cric

theorem adc_id (i : Inning) (d : DeliveryCreate) :
    (applyDeliveryCounters i d).id = i.id := by
  unfold applyDeliveryCounters
  cases d.is_extra <;> cases d.is_wicket <;> simp <;> split <;> rfl

theorem adc_match_id (i : Inning) (d : DeliveryCreate) :
    (applyDeliveryCounters i d).match_id = i.match_id := by
  unfold applyDeliveryCounters
  cases d.is_extra <;> cases d.is_wicket <;> simp <;> split <;> rfl

theorem adc_batting (i : Inning) (d : DeliveryCreate) :
    (applyDeliveryCounters i d).batting_team_id = i.batting_team_id := by
  unfold applyDeliveryCounters
  cases d.is_extra <;> cases d.is_wicket <;> simp <;> split <;> rfl

theorem adc_bowling (i : Inning) (d : DeliveryCreate) :
    (applyDeliveryCounters i d).bowling_team_id = i.bowling_team_id := by
  unfold applyDeliveryCounters
  cases d.is_extra <;> cases d.is_wicket <;> simp <;> split <;> rfl

theorem adc_completed (i : Inning) (d : DeliveryCreate) :
    (applyDeliveryCounters i d).is_completed = i.is_completed := by
  unfold applyDeliveryCounters
  cases d.is_extra <;> cases d.is_wicket <;> simp <;> split <;> rfl

theorem adc_runs (i : Inning) (d : DeliveryCreate) :
    (applyDeliveryCounters i d).total_runs =
      i.total_runs + d.runs_scored + (if d.is_extra = true then 1 else 0) := by
  unfold applyDeliveryCounters
  cases d.is_extra <;> cases d.is_wicket <;> simp <;> split <;> rfl

theorem adc_wickets (i : Inning) (d : DeliveryCreate) :
    (applyDeliveryCounters i d).wickets =
      i.wickets + (if d.is_wicket = true then 1 else 0) := by
  unfold applyDeliveryCounters
  cases d.is_extra <;> cases d.is_wicket <;> simp <;> split <;> rfl

theorem adc_balls_extra (i : Inning) (d : DeliveryCreate) (h : d.is_extra = true) :
    (applyDeliveryCounters i d).balls_bowled = i.balls_bowled ∧
    (applyDeliveryCounters i d).overs_bowled = i.overs_bowled := by
  unfold applyDeliveryCounters
  cases d.is_wicket <;> simp [h]

theorem adc_balls_legal_roll (i : Inning) (d : DeliveryCreate) (h : d.is_extra = false)
    (h6 : i.balls_bowled + 1 = 6) :
    (applyDeliveryCounters i d).balls_bowled = 0 ∧
    (applyDeliveryCounters i d).overs_bowled = i.overs_bowled + 1 := by
  unfold applyDeliveryCounters
  cases d.is_wicket <;> simp [h, h6]

theorem adc_balls_legal_mid (i : Inning) (d : DeliveryCreate) (h : d.is_extra = false)
    (h6 : i.balls_bowled + 1 ≠ 6) :
    (applyDeliveryCounters i d).balls_bowled = i.balls_bowled + 1 ∧
    (applyDeliveryCounters i d).overs_bowled = i.overs_bowled := by
  unfold applyDeliveryCounters
  cases d.is_wicket <;> simp [h, h6]

theorem markLive_winner (m : Match) :
    (markLiveIfScheduled m).winner_id = m.winner_id := by
  unfold markLiveIfScheduled; split <;> rfl

theorem markLive_status (m : Match) :
    (markLiveIfScheduled m).status = m.status ∨
    (markLiveIfScheduled m).status = MatchStatus.LIVE := by
  unfold markLiveIfScheduled; split
  · exact Or.inr rfl
  · exact Or.inl rfl

theorem markLive_status_ne_completed (m : Match) (h : m.status ≠ MatchStatus.COMPLETED) :
    (markLiveIfScheduled m).status ≠ MatchStatus.COMPLETED := by
  unfold markLiveIfScheduled; split
  · simp
  · exact h

theorem evalCompletion_first (m : Match) (i : Inning) (fs : Int) :
    evalCompletion m i fs true =
      (if 10 ≤ i.wickets ∨ 20 ≤ i.overs_bowled then { i with is_completed := true } else i,
       m) := by
  by_cases h10 : 10 ≤ i.wickets <;> by_cases h20 : 20 ≤ i.overs_bowled <;>
    simp [evalCompletion, h10, h20]

theorem evalCompletion_not_over (m : Match) (i : Inning) (fs : Int)
    (h10 : i.wickets < 10) (h20 : i.overs_bowled < 20) (hc : ¬ fs < i.total_runs) :
    evalCompletion m i fs false = (i, m) := by
  unfold evalCompletion
  simp [Nat.not_le.mpr h10, Nat.not_le.mpr h20, hc]

theorem evalCompletion_chase (m : Match) (i : Inning) (fs : Int)
    (h : fs < i.total_runs) :
    evalCompletion m i fs false =
      ({ i with is_completed := true },
       { m with winner_id := some i.batting_team_id,
                status := MatchStatus.COMPLETED }) := by
  unfold evalCompletion
  simp only [Bool.not_false, decide_eq_true_eq, h, decide_True, Bool.and_true,
    Bool.true_and, Bool.or_true, if_true]
  by_cases hb : i.batting_team_id = 0
  · simp [winnerFalsy, hb, h]
  · simp [winnerFalsy, hb]

theorem evalCompletion_natural_second (m : Match) (i : Inning) (fs : Int)
    (hover : 10 ≤ i.wickets ∨ 20 ≤ i.overs_bowled)
    (hc : ¬ fs < i.total_runs) (hw : m.winner_id = none) :
    evalCompletion m i fs false =
      ({ i with is_completed := true },
       if i.total_runs < fs then
         { m with winner_id := some i.bowling_team_id, status := MatchStatus.COMPLETED }
       else { m with status := MatchStatus.COMPLETED }) := by
  have hover' : (decide (10 ≤ i.wickets) || decide (20 ≤ i.overs_bowled)) = true := by
    rcases hover with h | h <;> simp [h]
  by_cases hlt : i.total_runs < fs <;>
    simp [evalCompletion, hover', hc, hw, hlt, winnerFalsy]

end Cric

namespace Cric

theorem update_match_toss_eq (st : MatchState) (mid : Nat) (td : TossData)
    (hid : st.mtch.id = mid) (hinn : st.innings = []) :
    update_match_toss st mid td = some
      { mtch := { st.mtch with
                  toss_winner_id := some td.toss_winner_id,
                  toss_decision := some td.decision },
        innings :=
          [ { id := 1, match_id := mid,
              batting_team_id := firstBatTeam st.mtch td,
              bowling_team_id := firstBowlTeam st.mtch td,
              total_runs := 0, wickets := 0, overs_bowled := 0,
              balls_bowled := 0, is_completed := false },
            { id := 2, match_id := mid,
              batting_team_id := firstBowlTeam st.mtch td,
              bowling_team_id := firstBatTeam st.mtch td,
              total_runs := 0, wickets := 0, overs_bowled := 0,
              balls_bowled := 0, is_completed := false } ],
        deliveries := st.deliveries } := by
  simp [update_match_toss, hid, hinn]

theorem update_match_toss_some (st st' : MatchState) (mid : Nat) (td : TossData)
    (h : update_match_toss st mid td = some st') :
    st.mtch.id = mid ∧ st.innings = [] ∧
    st' = { mtch := { st.mtch with
                      toss_winner_id := some td.toss_winner_id,
                      toss_decision := some td.decision },
            innings :=
              [ { id := 1, match_id := mid,
                  batting_team_id := firstBatTeam st.mtch td,
                  bowling_team_id := firstBowlTeam st.mtch td,
                  total_runs := 0, wickets := 0, overs_bowled := 0,
                  balls_bowled := 0, is_completed := false },
                { id := 2, match_id := mid,
                  batting_team_id := firstBowlTeam st.mtch td,
                  bowling_team_id := firstBatTeam st.mtch td,
                  total_runs := 0, wickets := 0, overs_bowled := 0,
                  balls_bowled := 0, is_completed := false } ],
            deliveries := st.deliveries } := by
  unfold update_match_toss at h
  by_cases hid : st.mtch.id = mid
  · by_cases hinn : st.innings = []
    · refine ⟨hid, hinn, ?_⟩
      simp [hid, hinn] at h
      rw [← h]
      simp [hid]
    · simp [hid, hinn] at h
  · simp [hid] at h

end Cric

namespace Cric

theorem minByIdFirst_pair (x y : Inning) :
    minByIdFirst [x, y] = some (if y.id < x.id then y else x) := by
  simp [minByIdFirst]

theorem evalCompletion_fst_cases (m : Match) (i : Inning) (fs : Int) (f : Bool) :
    (evalCompletion m i fs f).1 = i ∨
    (evalCompletion m i fs f).1 = { i with is_completed := true } := by
  unfold evalCompletion
  dsimp only
  split
  · exact Or.inr rfl
  · exact Or.inl rfl

theorem evalCompletion_fst_runs (m : Match) (i : Inning) (fs : Int) (f : Bool) :
    (evalCompletion m i fs f).1.total_runs = i.total_runs := by
  rcases evalCompletion_fst_cases m i fs f with h | h <;> rw [h]

theorem evalCompletion_fst_wickets (m : Match) (i : Inning) (fs : Int) (f : Bool) :
    (evalCompletion m i fs f).1.wickets = i.wickets := by
  rcases evalCompletion_fst_cases m i fs f with h | h <;> rw [h]

theorem evalCompletion_fst_balls (m : Match) (i : Inning) (fs : Int) (f : Bool) :
    (evalCompletion m i fs f).1.balls_bowled = i.balls_bowled := by
  rcases evalCompletion_fst_cases m i fs f with h | h <;> rw [h]

theorem evalCompletion_fst_overs (m : Match) (i : Inning) (fs : Int) (f : Bool) :
    (evalCompletion m i fs f).1.overs_bowled = i.overs_bowled := by
  rcases evalCompletion_fst_cases m i fs f with h | h <;> rw [h]

theorem evalCompletion_fst_id (m : Match) (i : Inning) (fs : Int) (f : Bool) :
    (evalCompletion m i fs f).1.id = i.id := by
  rcases evalCompletion_fst_cases m i fs f with h | h <;> rw [h]

theorem evalCompletion_fst_match_id (m : Match) (i : Inning) (fs : Int) (f : Bool) :
    (evalCompletion m i fs f).1.match_id = i.match_id := by
  rcases evalCompletion_fst_cases m i fs f with h | h <;> rw [h]

theorem evalCompletion_fst_batting (m : Match) (i : Inning) (fs : Int) (f : Bool) :
    (evalCompletion m i fs f).1.batting_team_id = i.batting_team_id := by
  rcases evalCompletion_fst_cases m i fs f with h | h <;> rw [h]

theorem evalCompletion_fst_bowling (m : Match) (i : Inning) (fs : Int) (f : Bool) :
    (evalCompletion m i fs f).1.bowling_team_id = i.bowling_team_id := by
  rcases evalCompletion_fst_cases m i fs f with h | h <;> rw [h]

theorem record_delivery_none_missing (st : MatchState) (a b : Inning) (mid : Nat)
    (d : DeliveryCreate) (hin : st.innings = [a, b]) (ha : a.id = 1) (hb : b.id = 2)
    (h1 : d.inning_id ≠ 1) (h2 : d.inning_id ≠ 2) :
    record_delivery st mid d = none := by
  have hfa : (a.id == d.inning_id) = false := by simp [ha, Ne.symm h1]
  have hfb : (b.id == d.inning_id) = false := by simp [hb, Ne.symm h2]
  simp [record_delivery, targetInning?, hin, List.find?, hfa, hfb]

theorem record_delivery_none_precond1 (st : MatchState) (a b : Inning) (mid : Nat)
    (d : DeliveryCreate) (hin : st.innings = [a, b]) (ha : a.id = 1) (_hb : b.id = 2)
    (h1 : d.inning_id = 1)
    (hbad : a.match_id ≠ mid ∨ st.mtch.status = MatchStatus.COMPLETED ∨
            a.is_completed = true) :
    record_delivery st mid d = none := by
  have hfa : (a.id == d.inning_id) = true := by simp [ha, h1]
  rcases hbad with h | h
  · simp [record_delivery, targetInning?, hin, List.find?, hfa, h]
  · by_cases hm : a.match_id = mid <;>
      simp [record_delivery, targetInning?, hin, List.find?, hfa, hm, h]

theorem record_delivery_none_precond2 (st : MatchState) (a b : Inning) (mid : Nat)
    (d : DeliveryCreate) (hin : st.innings = [a, b]) (ha : a.id = 1) (hb : b.id = 2)
    (h2 : d.inning_id = 2)
    (hbad : b.match_id ≠ mid ∨ st.mtch.status = MatchStatus.COMPLETED ∨
            b.is_completed = true) :
    record_delivery st mid d = none := by
  have hfa : (a.id == d.inning_id) = false := by simp [ha, h2]
  have hfb : (b.id == d.inning_id) = true := by simp [hb, h2]
  rcases hbad with h | h
  · simp [record_delivery, targetInning?, hin, List.find?, hfa, hfb, h]
  · by_cases hm : b.match_id = mid <;>
      simp [record_delivery, targetInning?, hin, List.find?, hfa, hfb, hm, h]

theorem record_delivery_eq_target1 (st : MatchState) (a b : Inning) (mid : Nat)
    (d : DeliveryCreate) (hin : st.innings = [a, b]) (ha : a.id = 1) (hb : b.id = 2)
    (h1 : d.inning_id = 1) (hm : a.match_id = mid)
    (hs : st.mtch.status ≠ MatchStatus.COMPLETED) (hc : a.is_completed = false) :
    record_delivery st mid d = some
      { mtch := (evalCompletion (markLiveIfScheduled st.mtch) (applyDeliveryCounters a d)
                  (applyDeliveryCounters a d).total_runs true).2,
        innings := [(evalCompletion (markLiveIfScheduled st.mtch) (applyDeliveryCounters a d)
                  (applyDeliveryCounters a d).total_runs true).1, b],
        deliveries := st.deliveries ++
          [{ inning_id := d.inning_id, batsman_id := d.batsman_id,
             bowler_id := d.bowler_id, runs_scored := d.runs_scored,
             is_extra := d.is_extra, extra_type := none,
             is_wicket := d.is_wicket, wicket_type := d.wicket_type }] } := by
  have hfa : (a.id == d.inning_id) = true := by simp [ha, h1]
  have hba : b.id ≠ d.inning_id := by rw [hb, h1]; decide
  have haa : a.id = d.inning_id := by rw [ha, h1]
  simp [record_delivery, targetInning?, hin, List.find?, hfa, hm, hs, hc, haa, hba,
    minByIdFirst_pair, adc_id, hb, h1]

theorem record_delivery_eq_target2 (st : MatchState) (a b : Inning) (mid : Nat)
    (d : DeliveryCreate) (hin : st.innings = [a, b]) (ha : a.id = 1) (hb : b.id = 2)
    (h2 : d.inning_id = 2) (hm : b.match_id = mid)
    (hs : st.mtch.status ≠ MatchStatus.COMPLETED) (hc : b.is_completed = false) :
    record_delivery st mid d = some
      { mtch := (evalCompletion (markLiveIfScheduled st.mtch) (applyDeliveryCounters b d)
                  a.total_runs false).2,
        innings := [a, (evalCompletion (markLiveIfScheduled st.mtch) (applyDeliveryCounters b d)
                  a.total_runs false).1],
        deliveries := st.deliveries ++
          [{ inning_id := d.inning_id, batsman_id := d.batsman_id,
             bowler_id := d.bowler_id, runs_scored := d.runs_scored,
             is_extra := d.is_extra, extra_type := none,
             is_wicket := d.is_wicket, wicket_type := d.wicket_type }] } := by
  have hfa : (a.id == d.inning_id) = false := by simp [ha, h2]
  have hfb : (b.id == d.inning_id) = true := by simp [hb, h2]
  have haa : a.id ≠ d.inning_id := by rw [ha, h2]; decide
  have hbb : b.id = d.inning_id := by rw [hb, h2]
  simp [record_delivery, targetInning?, hin, List.find?, hfa, hfb, hm, hs, hc, haa, hbb,
    minByIdFirst_pair, adc_id, ha, hb, h2]

end Cric

namespace Cric

theorem record_delivery_cases (st st' : MatchState) (a b : Inning) (mid : Nat)
    (d : DeliveryCreate) (hin : st.innings = [a, b]) (ha : a.id = 1) (hb : b.id = 2)
    (hrun : record_delivery st mid d = some st') :
    st.mtch.status ≠ MatchStatus.COMPLETED ∧
    st'.deliveries = st.deliveries ++
      [{ inning_id := d.inning_id, batsman_id := d.batsman_id, bowler_id := d.bowler_id,
         runs_scored := d.runs_scored, is_extra := d.is_extra, extra_type := none,
         is_wicket := d.is_wicket, wicket_type := d.wicket_type }] ∧
    ((d.inning_id = 1 ∧ a.match_id = mid ∧ a.is_completed = false ∧
       st'.innings = [(evalCompletion (markLiveIfScheduled st.mtch)
                        (applyDeliveryCounters a d)
                        (applyDeliveryCounters a d).total_runs true).1, b] ∧
       st'.mtch = (evalCompletion (markLiveIfScheduled st.mtch)
                        (applyDeliveryCounters a d)
                        (applyDeliveryCounters a d).total_runs true).2) ∨
     (d.inning_id = 2 ∧ b.match_id = mid ∧ b.is_completed = false ∧
       st'.innings = [a, (evalCompletion (markLiveIfScheduled st.mtch)
                        (applyDeliveryCounters b d) a.total_runs false).1] ∧
       st'.mtch = (evalCompletion (markLiveIfScheduled st.mtch)
                        (applyDeliveryCounters b d) a.total_runs false).2)) := by
  by_cases h1 : d.inning_id = 1
  · by_cases hm : a.match_id = mid
    · by_cases hs : st.mtch.status = MatchStatus.COMPLETED
      · rw [record_delivery_none_precond1 st a b mid d hin ha hb h1
          (Or.inr (Or.inl hs))] at hrun
        cases hrun
      · by_cases hc : a.is_completed = true
        · rw [record_delivery_none_precond1 st a b mid d hin ha hb h1
            (Or.inr (Or.inr hc))] at hrun
          cases hrun
        · have hcf : a.is_completed = false := by
            revert hc; cases a.is_completed <;> simp
          rw [record_delivery_eq_target1 st a b mid d hin ha hb h1 hm hs hcf] at hrun
          have hst := Option.some.inj hrun
          subst hst
          exact ⟨hs, rfl, Or.inl ⟨h1, hm, hcf, rfl, rfl⟩⟩
    · rw [record_delivery_none_precond1 st a b mid d hin ha hb h1 (Or.inl hm)] at hrun
      cases hrun
  · by_cases h2 : d.inning_id = 2
    · by_cases hm : b.match_id = mid
      · by_cases hs : st.mtch.status = MatchStatus.COMPLETED
        · rw [record_delivery_none_precond2 st a b mid d hin ha hb h2
            (Or.inr (Or.inl hs))] at hrun
          cases hrun
        · by_cases hc : b.is_completed = true
          · rw [record_delivery_none_precond2 st a b mid d hin ha hb h2
              (Or.inr (Or.inr hc))] at hrun
            cases hrun
          · have hcf : b.is_completed = false := by
              revert hc; cases b.is_completed <;> simp
            rw [record_delivery_eq_target2 st a b mid d hin ha hb h2 hm hs hcf] at hrun
            have hst := Option.some.inj hrun
            subst hst
            exact ⟨hs, rfl, Or.inr ⟨h2, hm, hcf, rfl, rfl⟩⟩
      · rw [record_delivery_none_precond2 st a b mid d hin ha hb h2 (Or.inl hm)] at hrun
        cases hrun
    · rw [record_delivery_none_missing st a b mid d hin ha hb h1 h2] at hrun
      cases hrun

end Cric

namespace Cric

theorem record_delivery_none_empty (st : MatchState) (mid : Nat) (d : DeliveryCreate)
    (hin : st.innings = []) : record_delivery st mid d = none := by
  simp [record_delivery, targetInning?, hin]

theorem evalCompletion_fst_active (m : Match) (i : Inning) (fs : Int) (f : Bool)
    (h : (evalCompletion m i fs f).1.is_completed = false) :
    (evalCompletion m i fs f).1 = i ∧ i.wickets < 10 ∧ i.overs_bowled < 20 := by
  by_cases hC : ((decide (10 ≤ i.wickets) || decide (20 ≤ i.overs_bowled)) ||
      (!f && decide (fs < i.total_runs))) = true
  · exfalso
    simp only [evalCompletion, hC, if_true] at h
    simp at h
  · have hC' := hC
    simp only [Bool.or_eq_true, decide_eq_true_eq, not_or] at hC'
    refine ⟨?_, ?_, ?_⟩
    · simp [evalCompletion, hC]
    · omega
    · omega

theorem reachable_shape (st : MatchState) (h : Reachable st) :
    (st.innings = [] ∧ st.deliveries = []) ∨
    (∃ a b : Inning, st.innings = [a, b] ∧ a.id = 1 ∧ b.id = 2) := by
  induction h with
  | init id t1 t2 hne => exact Or.inl ⟨rfl, rfl⟩
  | toss st st' mid td hr hts ih =>
    obtain ⟨_, _, hst⟩ := update_match_toss_some st st' mid td hts
    subst hst
    exact Or.inr ⟨_, _, rfl, rfl, rfl⟩
  | deliver st st' mid d hr hrd ih =>
    rcases ih with ⟨hinn, hdel⟩ | ⟨a, b, hin, ha, hb⟩
    · rw [record_delivery_none_empty st mid d hinn] at hrd
      cases hrd
    · obtain ⟨_, _, hcase⟩ := record_delivery_cases st st' a b mid d hin ha hb hrd
      rcases hcase with ⟨h1, _, _, hinn', _⟩ | ⟨h2, _, _, hinn', _⟩
      · refine Or.inr ⟨_, b, hinn', ?_, hb⟩
        rw [evalCompletion_fst_id, adc_id, ha]
      · refine Or.inr ⟨a, _, hinn', ha, ?_⟩
        rw [evalCompletion_fst_id, adc_id, hb]

theorem reachable_balls_le (st : MatchState) (h : Reachable st) :
    ∀ i ∈ st.innings, i.balls_bowled ≤ 5 := by
  induction h with
  | init id t1 t2 hne => intro i hi; simp [create_match] at hi
  | toss st st' mid td hr hts ih =>
    obtain ⟨_, _, hst⟩ := update_match_toss_some st st' mid td hts
    subst hst
    intro i hi
    simp only [List.mem_cons, List.not_mem_nil, or_false] at hi
    rcases hi with rfl | rfl <;> simp
  | deliver st st' mid d hr hrd ih =>
    rcases reachable_shape st hr with ⟨hinn, _⟩ | ⟨a, b, hin, ha, hb⟩
    · rw [record_delivery_none_empty st mid d hinn] at hrd
      cases hrd
    · have hab : a.balls_bowled ≤ 5 := ih a (by rw [hin]; exact List.mem_cons_self a _)
      have hbb2 : b.balls_bowled ≤ 5 := ih b (by rw [hin]; simp)
      have hup : ∀ (t : Inning), t.balls_bowled ≤ 5 →
          (applyDeliveryCounters t d).balls_bowled ≤ 5 := by
        intro t ht
        by_cases hx : d.is_extra = true
        · rw [(adc_balls_extra t d hx).1]; exact ht
        · have hx' : d.is_extra = false := by revert hx; cases d.is_extra <;> simp
          by_cases h6 : t.balls_bowled + 1 = 6
          · rw [(adc_balls_legal_roll t d hx' h6).1]; omega
          · rw [(adc_balls_legal_mid t d hx' h6).1]; omega
      obtain ⟨_, _, hcase⟩ := record_delivery_cases st st' a b mid d hin ha hb hrd
      intro i hi
      rcases hcase with ⟨h1, _, _, hinn', _⟩ | ⟨h2, _, _, hinn', _⟩
      · rw [hinn'] at hi
        simp only [List.mem_cons, List.not_mem_nil, or_false] at hi
        rcases hi with rfl | rfl
        · rw [evalCompletion_fst_balls]; exact hup a hab
        · exact hbb2
      · rw [hinn'] at hi
        simp only [List.mem_cons, List.not_mem_nil, or_false] at hi
        rcases hi with rfl | rfl
        · exact hab
        · rw [evalCompletion_fst_balls]; exact hup b hbb2

theorem reachable_wickets_inv (st : MatchState) (h : Reachable st) :
    ∀ i ∈ st.innings, i.wickets ≤ 10 ∧ (i.is_completed = false → i.wickets ≤ 9) := by
  induction h with
  | init id t1 t2 hne => intro i hi; simp [create_match] at hi
  | toss st st' mid td hr hts ih =>
    obtain ⟨_, _, hst⟩ := update_match_toss_some st st' mid td hts
    subst hst
    intro i hi
    simp only [List.mem_cons, List.not_mem_nil, or_false] at hi
    rcases hi with rfl | rfl <;> simp
  | deliver st st' mid d hr hrd ih =>
    rcases reachable_shape st hr with ⟨hinn, _⟩ | ⟨a, b, hin, ha, hb⟩
    · rw [record_delivery_none_empty st mid d hinn] at hrd
      cases hrd
    · have hainv := ih a (by rw [hin]; exact List.mem_cons_self a _)
      have hbinv := ih b (by rw [hin]; simp)
      obtain ⟨_, _, hcase⟩ := record_delivery_cases st st' a b mid d hin ha hb hrd
      have hup : ∀ (t : Inning) (m : Match) (fs : Int) (f : Bool),
          t.is_completed = false → t.wickets ≤ 9 →
          (evalCompletion m (applyDeliveryCounters t d) fs f).1.wickets ≤ 10 ∧
          ((evalCompletion m (applyDeliveryCounters t d) fs f).1.is_completed = false →
            (evalCompletion m (applyDeliveryCounters t d) fs f).1.wickets ≤ 9) := by
        intro t m fs f htc htw
        have hw4 : (applyDeliveryCounters t d).wickets =
            t.wickets + (if d.is_wicket = true then 1 else 0) := adc_wickets t d
        constructor
        · rw [evalCompletion_fst_wickets, hw4]
          split <;> omega
        · intro hact
          obtain ⟨heq, hwlt, _⟩ := evalCompletion_fst_active m
            (applyDeliveryCounters t d) fs f hact
          rw [evalCompletion_fst_wickets]
          omega
      intro i hi
      rcases hcase with ⟨h1, _, hac, hinn', _⟩ | ⟨h2, _, hbc, hinn', _⟩
      · rw [hinn'] at hi
        simp only [List.mem_cons, List.not_mem_nil, or_false] at hi
        rcases hi with rfl | rfl
        · exact hup a _ _ _ hac (hainv.2 hac)
        · exact hbinv
      · rw [hinn'] at hi
        simp only [List.mem_cons, List.not_mem_nil, or_false] at hi
        rcases hi with rfl | rfl
        · exact hainv
        · exact hup b _ _ _ hbc (hbinv.2 hbc)

end Cric

namespace Cric

/-- Claim C1: a delivery applied to the second batted inning whose updated
total strictly exceeds the first inning total completes that inning, sets
the winner to its batting team and sets the match status to Completed,
with no condition on wickets or overs. -/
theorem C1_chase_short_circuit (st st' : MatchState) (a b : Inning) (mid : Nat)
    (d : DeliveryCreate) (hin : st.innings = [a, b]) (ha : a.id = 1) (hb : b.id = 2)
    (htgt : d.inning_id = 2)
    (hchase : a.total_runs < (applyDeliveryCounters b d).total_runs)
    (hrun : record_delivery st mid d = some st') :
    st'.innings = [a, { applyDeliveryCounters b d with is_completed := true }] ∧
    st'.mtch.winner_id = some b.batting_team_id ∧
    st'.mtch.status = MatchStatus.COMPLETED := by
  obtain ⟨hs, hdel, hcase⟩ := record_delivery_cases st st' a b mid d hin ha hb hrun
  rcases hcase with ⟨h1, _⟩ | ⟨h2, hm, hbc, hinn', hm'⟩
  · rw [htgt] at h1
    exact absurd h1 (by decide)
  · refine ⟨?_, ?_, ?_⟩
    · rw [hinn', evalCompletion_chase _ _ _ hchase]
    · rw [hm', evalCompletion_chase _ _ _ hchase]
      simp [adc_batting]
    · rw [hm', evalCompletion_chase _ _ _ hchase]

/-- Claim C2: on a delivery that brings the second batted inning to
natural completion (ten wickets or twenty overs) with no winner recorded
before the delivery, the match status becomes Completed, and the winner is
the side with the strictly larger total, while exactly equal totals leave
the winner unassigned. -/
theorem C2_natural_completion_outcomes (st st' : MatchState) (a b : Inning) (mid : Nat)
    (d : DeliveryCreate) (hin : st.innings = [a, b]) (ha : a.id = 1) (hb : b.id = 2)
    (htgt : d.inning_id = 2)
    (hswap : b.bowling_team_id = a.batting_team_id)
    (hwin : st.mtch.winner_id = none)
    (hnat : 10 ≤ (applyDeliveryCounters b d).wickets ∨
            20 ≤ (applyDeliveryCounters b d).overs_bowled)
    (hrun : record_delivery st mid d = some st') :
    st'.mtch.status = MatchStatus.COMPLETED ∧
    (a.total_runs < (applyDeliveryCounters b d).total_runs →
      st'.mtch.winner_id = some b.batting_team_id) ∧
    ((applyDeliveryCounters b d).total_runs < a.total_runs →
      st'.mtch.winner_id = some a.batting_team_id) ∧
    ((applyDeliveryCounters b d).total_runs = a.total_runs →
      st'.mtch.winner_id = none) := by
  obtain ⟨hs, hdel, hcase⟩ := record_delivery_cases st st' a b mid d hin ha hb hrun
  rcases hcase with ⟨h1, _⟩ | ⟨h2, hm, hbc, hinn', hm'⟩
  · rw [htgt] at h1
    exact absurd h1 (by decide)
  · have hwm1 : (markLiveIfScheduled st.mtch).winner_id = none := by
      rw [markLive_winner]; exact hwin
    by_cases hch : a.total_runs < (applyDeliveryCounters b d).total_runs
    · refine ⟨?_, fun _ => ?_, fun hlt => ?_, fun heq => ?_⟩
      · rw [hm', evalCompletion_chase _ _ _ hch]
      · rw [hm', evalCompletion_chase _ _ _ hch]
        simp [adc_batting]
      · exact absurd hch (by omega)
      · exact absurd hch (by omega)
    · refine ⟨?_, fun hlt => ?_, fun hlt => ?_, fun heq => ?_⟩
      · rw [hm', evalCompletion_natural_second _ _ _ hnat hch hwm1]
        dsimp only
        split <;> rfl
      · exact absurd hlt hch
      · rw [hm', evalCompletion_natural_second _ _ _ hnat hch hwm1]
        dsimp only
        rw [if_pos hlt]
        simp [adc_bowling, hswap]
      · rw [hm', evalCompletion_natural_second _ _ _ hnat hch hwm1]
        dsimp only
        rw [if_neg (by omega)]
        simpa [markLive_winner] using hwin

/-- Claim C3: a successful toss resolution creates exactly two innings,
the first batting side is the toss winner on a Bat decision and the other
team on a Field decision, the second inning swaps the teams, and both
innings start with zeroed counters and is_completed false; the computed
toss loser really is the other team. -/
theorem C3_toss_creates_two_innings (st st' : MatchState) (mid : Nat) (td : TossData)
    (hne : st.mtch.team1_id ≠ st.mtch.team2_id)
    (hwm : td.toss_winner_id = st.mtch.team1_id ∨ td.toss_winner_id = st.mtch.team2_id)
    (hrun : update_match_toss st mid td = some st') :
    st'.innings =
      [ { id := 1, match_id := mid,
          batting_team_id := if td.decision = TossDecision.BAT then td.toss_winner_id
            else if td.toss_winner_id = st.mtch.team1_id then st.mtch.team2_id
            else st.mtch.team1_id,
          bowling_team_id := if td.decision = TossDecision.BAT then
              (if td.toss_winner_id = st.mtch.team1_id then st.mtch.team2_id
               else st.mtch.team1_id)
            else td.toss_winner_id,
          total_runs := 0, wickets := 0, overs_bowled := 0, balls_bowled := 0,
          is_completed := false },
        { id := 2, match_id := mid,
          batting_team_id := if td.decision = TossDecision.BAT then
              (if td.toss_winner_id = st.mtch.team1_id then st.mtch.team2_id
               else st.mtch.team1_id)
            else td.toss_winner_id,
          bowling_team_id := if td.decision = TossDecision.BAT then td.toss_winner_id
            else if td.toss_winner_id = st.mtch.team1_id then st.mtch.team2_id
            else st.mtch.team1_id,
          total_runs := 0, wickets := 0, overs_bowled := 0, balls_bowled := 0,
          is_completed := false } ] ∧
    (if td.toss_winner_id = st.mtch.team1_id then st.mtch.team2_id
     else st.mtch.team1_id) ≠ td.toss_winner_id := by
  obtain ⟨hid, hinn, hst⟩ := update_match_toss_some st st' mid td hrun
  subst hst
  constructor
  · cases htd : td.decision <;>
      simp [firstBatTeam, firstBowlTeam, htd]
  · rcases hwm with h | h
    · rw [if_pos h, h]
      exact Ne.symm hne
    · by_cases h1 : td.toss_winner_id = st.mtch.team1_id
      · exact absurd (h1.symm.trans h) hne
      · rw [if_neg h1, h]
        exact hne

end Cric

namespace Cric

theorem target_update (st st' : MatchState) (mid : Nat) (d : DeliveryCreate) (i j : Inning)
    (hsh : (st.innings = [] ∧ st.deliveries = []) ∨
           (∃ a b : Inning, st.innings = [a, b] ∧ a.id = 1 ∧ b.id = 2))
    (hi : targetInning? st d.inning_id = some i)
    (hrun : record_delivery st mid d = some st')
    (hj : targetInning? st' d.inning_id = some j) :
    ∃ (m : Match) (fs : Int) (f : Bool),
      j = (evalCompletion m (applyDeliveryCounters i d) fs f).1 := by
  rcases hsh with ⟨hinn, _⟩ | ⟨a, b, hin, ha, hb⟩
  · rw [targetInning?, hinn] at hi
    simp at hi
  · obtain ⟨hs, hdel, hcase⟩ := record_delivery_cases st st' a b mid d hin ha hb hrun
    rcases hcase with ⟨h1, _, _, hinn', _⟩ | ⟨h2, _, _, hinn', _⟩
    · have hia : i = a := by
        rw [targetInning?, hin] at hi
        have hfa : (a.id == d.inning_id) = true := by simp [ha, h1]
        simp [List.find?, hfa] at hi
        exact hi.symm
      have hupid : ((evalCompletion (markLiveIfScheduled st.mtch) (applyDeliveryCounters a d)
          (applyDeliveryCounters a d).total_runs true).1.id == d.inning_id) = true := by
        simp [evalCompletion_fst_id, adc_id, ha, h1]
      rw [targetInning?, hinn'] at hj
      simp [List.find?, hupid] at hj
      exact ⟨markLiveIfScheduled st.mtch, (applyDeliveryCounters a d).total_runs, true,
        by rw [← hj, hia]⟩
    · have hib2 : i = b := by
        rw [targetInning?, hin] at hi
        have hfa : (a.id == d.inning_id) = false := by simp [ha, h2]
        have hfb : (b.id == d.inning_id) = true := by simp [hb, h2]
        simp [List.find?, hfa, hfb] at hi
        exact hi.symm
      have hfa2 : (a.id == d.inning_id) = false := by simp [ha, h2]
      have hupid : ((evalCompletion (markLiveIfScheduled st.mtch) (applyDeliveryCounters b d)
          a.total_runs false).1.id == d.inning_id) = true := by
        simp [evalCompletion_fst_id, adc_id, hb, h2]
      rw [targetInning?, hinn'] at hj
      simp [List.find?, hfa2, hupid] at hj
      exact ⟨markLiveIfScheduled st.mtch, a.total_runs, false, by rw [← hj, hib2]⟩

/-- Claim C4: for a successful delivery, an extra leaves balls_bowled and
overs_bowled of the target inning unchanged, a legal ball advances
balls_bowled by one, rolling over to a fresh over at six; on reachable
states balls_bowled stays at most five, and six times overs plus balls
advances by exactly one per legal ball and zero per extra. -/
theorem C4_ball_over_accounting (st st' : MatchState) (mid : Nat) (d : DeliveryCreate)
    (i j : Inning) (hreach : Reachable st)
    (hi : targetInning? st d.inning_id = some i)
    (hrun : record_delivery st mid d = some st')
    (hj : targetInning? st' d.inning_id = some j) :
    (d.is_extra = true → j.balls_bowled = i.balls_bowled ∧
      j.overs_bowled = i.overs_bowled) ∧
    (d.is_extra = false → i.balls_bowled + 1 = 6 →
      j.balls_bowled = 0 ∧ j.overs_bowled = i.overs_bowled + 1) ∧
    (d.is_extra = false → i.balls_bowled + 1 ≠ 6 →
      j.balls_bowled = i.balls_bowled + 1 ∧ j.overs_bowled = i.overs_bowled) ∧
    j.balls_bowled ≤ 5 ∧
    6 * j.overs_bowled + j.balls_bowled =
      6 * i.overs_bowled + i.balls_bowled + (if d.is_extra = true then 0 else 1) := by
  obtain ⟨m, fs, f, hjj⟩ :=
    target_update st st' mid d i j (reachable_shape st hreach) hi hrun hj
  have hmem : i ∈ st.innings := List.mem_of_find?_eq_some hi
  have hib : i.balls_bowled ≤ 5 := reachable_balls_le st hreach i hmem
  have hjb : j.balls_bowled = (applyDeliveryCounters i d).balls_bowled := by
    rw [hjj, evalCompletion_fst_balls]
  have hjo : j.overs_bowled = (applyDeliveryCounters i d).overs_bowled := by
    rw [hjj, evalCompletion_fst_overs]
  cases hx : d.is_extra with
  | true =>
    obtain ⟨hb1, ho1⟩ := adc_balls_extra i d hx
    refine ⟨fun _ => ⟨by omega, by omega⟩, fun hf _ => ?_, fun hf _ => ?_,
      by omega, ?_⟩
    · cases hf
    · cases hf
    · rw [if_pos rfl]
      omega
  | false =>
    by_cases h6 : i.balls_bowled + 1 = 6
    · obtain ⟨hb1, ho1⟩ := adc_balls_legal_roll i d hx h6
      refine ⟨fun ht => ?_, fun _ _ => ⟨by omega, by omega⟩,
        fun _ hn => absurd h6 hn, by omega, ?_⟩
      · cases ht
      · rw [if_neg (by simp)]
        omega
    · obtain ⟨hb1, ho1⟩ := adc_balls_legal_mid i d hx h6
      refine ⟨fun ht => ?_, fun _ h66 => absurd h66 h6,
        fun _ _ => ⟨by omega, by omega⟩, by omega, ?_⟩
      · cases ht
      · rw [if_neg (by simp)]
        omega

/-- Claim C8: a successful delivery increases the target inning total by
exactly runs_scored plus one when it is an extra, hence for a non negative
runs_scored the total never decreases. -/
theorem C8_total_runs_delta (st st' : MatchState) (mid : Nat) (d : DeliveryCreate)
    (i j : Inning) (hreach : Reachable st)
    (hi : targetInning? st d.inning_id = some i)
    (hrun : record_delivery st mid d = some st')
    (hj : targetInning? st' d.inning_id = some j) :
    j.total_runs = i.total_runs + d.runs_scored +
      (if d.is_extra = true then 1 else 0) ∧
    (0 ≤ d.runs_scored → i.total_runs ≤ j.total_runs) := by
  obtain ⟨m, fs, f, hjj⟩ :=
    target_update st st' mid d i j (reachable_shape st hreach) hi hrun hj
  have h1 : j.total_runs = i.total_runs + d.runs_scored +
      (if d.is_extra = true then 1 else 0) := by
    rw [hjj, evalCompletion_fst_runs, adc_runs]
  refine ⟨h1, fun hr => ?_⟩
  rw [h1]
  split <;> omega

/-- Claim C9: in every reachable state each inning holds at most ten
wickets, and an inning at exactly ten wickets is completed. -/
theorem C9_wickets_bounded (st : MatchState) (hreach : Reachable st) :
    ∀ i ∈ st.innings, i.wickets ≤ 10 ∧ (i.wickets = 10 → i.is_completed = true) := by
  intro i hi
  obtain ⟨h10, h9⟩ := reachable_wickets_inv st hreach i hi
  refine ⟨h10, fun he => ?_⟩
  by_cases hc : i.is_completed = true
  · exact hc
  · have hcf : i.is_completed = false := by revert hc; cases i.is_completed <;> simp
    have := h9 hcf
    omega

end Cric

namespace Cric

theorem evalCompletion_snd_active (m : Match) (i : Inning) (fs : Int) (f : Bool)
    (h : (evalCompletion m i fs f).1.is_completed = false) :
    (evalCompletion m i fs f).2 = m := by
  by_cases hC : ((decide (10 ≤ i.wickets) || decide (20 ≤ i.overs_bowled)) ||
      (!f && decide (fs < i.total_runs))) = true
  · exfalso
    simp only [evalCompletion, hC, if_true] at h
    simp at h
  · have hch : (!f && decide (fs < i.total_runs)) = false := by
      revert hC; cases hb : (!f && decide (fs < i.total_runs)) <;> simp [hb]
    have hC' := hC
    simp only [Bool.or_eq_true, decide_eq_true_eq, not_or] at hC'
    obtain ⟨⟨h10, h20⟩, _⟩ := hC'
    simp [evalCompletion, hC, hch, h10, h20]

theorem reachableOrdered_reachable (st : MatchState) (h : ReachableOrdered st) :
    Reachable st := by
  induction h with
  | init id t1 t2 hne => exact Reachable.init id t1 t2 hne
  | toss st st' mid td hr hts ih => exact Reachable.toss st st' mid td ih hts
  | deliver st st' mid d hr hok hrd ih => exact Reachable.deliver st st' mid d ih hrd

theorem ordered_aux (st : MatchState) (h : ReachableOrdered st) :
    ∀ a b : Inning, st.innings = [a, b] →
      (∃ dl ∈ st.deliveries, dl.inning_id = b.id) → a.is_completed = true := by
  induction h with
  | init id t1 t2 hne =>
    intro a b hin hdl
    simp [create_match] at hin
  | toss st st' mid td hr hts ih =>
    intro a b hin hdl
    obtain ⟨hid, hinn0, hst⟩ := update_match_toss_some st st' mid td hts
    have hpre : Reachable st := reachableOrdered_reachable st hr
    rcases reachable_shape st hpre with ⟨_, hdel0⟩ | ⟨x, y, hxy, _, _⟩
    · subst hst
      rcases hdl with ⟨dl, hmem, _⟩
      simp only [hdel0] at hmem
      cases hmem
    · rw [hxy] at hinn0
      cases hinn0
  | deliver st st' mid d hr hok hrd ih =>
    intro a b hin hdl
    have hpre : Reachable st := reachableOrdered_reachable st hr
    rcases reachable_shape st hpre with ⟨hinn0, _⟩ | ⟨x, y, hxy, hx1, hy2⟩
    · rw [record_delivery_none_empty st mid d hinn0] at hrd
      cases hrd
    · obtain ⟨hs, hdel, hcase⟩ := record_delivery_cases st st' x y mid d hxy hx1 hy2 hrd
      rcases hcase with ⟨h1, hm, hxc, hinn', hm'⟩ | ⟨h2, hm, hyc, hinn', hm'⟩
      · rw [hinn'] at hin
        injection hin with hin1 hin2
        injection hin2 with hin2 hin3
        rcases hdl with ⟨dl, hmem, hdid⟩
        rw [hdel, List.mem_append] at hmem
        rcases hmem with hmem | hmem
        · have hxcomp := ih x y hxy ⟨dl, hmem, by rw [hdid, ← hin2]⟩
          rw [hxcomp] at hxc
          cases hxc
        · simp only [List.mem_singleton] at hmem
          rw [hmem] at hdid
          simp only at hdid
          rw [h1, ← hin2, hy2] at hdid
          cases hdid
      · rw [hinn'] at hin
        injection hin with hin1 hin2
        rw [← hin1]
        unfold orderedOK at hok
        rw [hxy] at hok
        simp only at hok
        rw [h2, hy2] at hok
        simpa using hok

/-- Claim C7 amended: when every delivery obeys the ordering discipline
that the second created inning is bowled only once the first created
inning is completed, any reachable state in which some delivery row
targets the second created inning has the first created inning completed,
so at most one inning is ever active. -/
theorem C7_ordered_discipline_invariant (st : MatchState) (h : ReachableOrdered st)
    (a b : Inning) (hin : st.innings = [a, b])
    (hdl : ∃ dl ∈ st.deliveries, dl.inning_id = b.id) :
    a.is_completed = true :=
  ordered_aux st h a b hin hdl

/-- Claim C6 amended: a successful delivery turns the match status to
Completed only when it targets the second created inning and completes it
in the same operation; the first created inning can still be active at
that point. -/
theorem C6_completed_only_via_second_inning (st st' : MatchState) (a b : Inning)
    (mid : Nat) (d : DeliveryCreate)
    (hin : st.innings = [a, b]) (ha : a.id = 1) (hb : b.id = 2)
    (hrun : record_delivery st mid d = some st')
    (hpost : st'.mtch.status = MatchStatus.COMPLETED) :
    d.inning_id = 2 ∧ st'.innings.map Inning.is_completed = [a.is_completed, true] := by
  obtain ⟨hs, hdel, hcase⟩ := record_delivery_cases st st' a b mid d hin ha hb hrun
  rcases hcase with ⟨h1, hm, hac, hinn', hm'⟩ | ⟨h2, hm, hbc, hinn', hm'⟩
  · exfalso
    rw [hm', evalCompletion_first] at hpost
    exact markLive_status_ne_completed st.mtch hs hpost
  · refine ⟨h2, ?_⟩
    have hbcomp : (evalCompletion (markLiveIfScheduled st.mtch)
        (applyDeliveryCounters b d) a.total_runs false).1.is_completed = true := by
      by_cases hcc : (evalCompletion (markLiveIfScheduled st.mtch)
          (applyDeliveryCounters b d) a.total_runs false).1.is_completed = true
      · exact hcc
      · exfalso
        have hcf : (evalCompletion (markLiveIfScheduled st.mtch)
            (applyDeliveryCounters b d) a.total_runs false).1.is_completed = false := by
          revert hcc
          cases (evalCompletion (markLiveIfScheduled st.mtch)
            (applyDeliveryCounters b d) a.total_runs false).1.is_completed <;> simp
        have hsnd := evalCompletion_snd_active _ _ _ _ hcf
        rw [hm', hsnd] at hpost
        exact markLive_status_ne_completed st.mtch hs hpost
    rw [hinn']
    simp [hbcomp]

/-- Claim C5 amended: every precondition violation of record_delivery or
update_match_toss is rejected with the single undifferentiated failure
signal none, before any mutation. -/
theorem C5_rejection_no_mutation (st : MatchState) (mid : Nat) (d : DeliveryCreate)
    (td : TossData) :
    ((targetInning? st d.inning_id = none ∨
      (∃ i, targetInning? st d.inning_id = some i ∧
        (i.match_id ≠ mid ∨ st.mtch.status = MatchStatus.COMPLETED ∨
         i.is_completed = true))) →
      record_delivery st mid d = none) ∧
    ((st.mtch.id ≠ mid ∨ st.innings ≠ []) → update_match_toss st mid td = none) := by
  constructor
  · intro h
    rcases h with h | ⟨i, hi, hbad⟩
    · unfold record_delivery
      rw [h]
    · unfold record_delivery
      rw [hi]
      rcases hbad with hb | hb | hb
      · simp [hb]
      · by_cases hm : i.match_id = mid <;> simp [hm, hb]
      · by_cases hm : i.match_id = mid <;> simp [hm, hb]
  · intro h
    unfold update_match_toss
    rcases h with h | h
    · simp [h]
    · by_cases hid : st.mtch.id = mid <;> simp [hid, h]

/-- Claim C10 amended: the crud toss core performs no toss winner
validation of its own: for a resolving match id with no innings it always
succeeds and records any toss_winner_id, while the rejection of a winner
outside the two teams happens only in the caller record_toss. -/
theorem C10_no_internal_validation (st : MatchState) (mid : Nat) (td : TossData)
    (hid : st.mtch.id = mid) (hinn : st.innings = []) :
    (∃ st', update_match_toss st mid td = some st' ∧
      st'.mtch.toss_winner_id = some td.toss_winner_id ∧
      st'.innings.length = 2) ∧
    (td.toss_winner_id ≠ st.mtch.team1_id → td.toss_winner_id ≠ st.mtch.team2_id →
      record_toss st mid td = none) := by
  constructor
  · exact ⟨_, update_match_toss_eq st mid td hid hinn, rfl, rfl⟩
  · intro h1 h2
    unfold record_toss
    simp [hid, h1, h2]

end Cric

namespace Cric

def c5inn1 : Inning := ⟨1, 1, 10, 20, 30, 2, 5, 3, false⟩
def c5inn2 : Inning := ⟨2, 1, 20, 10, 0, 0, 0, 0, false⟩
def c5stA : MatchState :=
  ⟨⟨1, 10, 20, MatchStatus.LIVE, some 10, some TossDecision.BAT, none⟩,
   [c5inn1, c5inn2], []⟩
def c5stB : MatchState :=
  ⟨⟨1, 10, 20, MatchStatus.COMPLETED, some 10, some TossDecision.BAT, some 10⟩,
   [c5inn1, c5inn2], []⟩
def c5d : DeliveryCreate := ⟨1, 101, 201, 1, false, false, none⟩
def c5td : TossData := ⟨10, TossDecision.BAT⟩

/-- Claim C5 counterexample: an inning match mismatch call and a
completed match call violate different preconditions yet produce the
identical failure signal none, so the signal does not identify which
precondition failed. -/
theorem C5_single_failure_signal_counterexample :
    targetInning? c5stA c5d.inning_id = some c5inn1 ∧
    c5inn1.match_id = 1 ∧ c5stA.mtch.status ≠ MatchStatus.COMPLETED ∧
    c5inn1.is_completed = false ∧
    c5stB.mtch.status = MatchStatus.COMPLETED ∧
    record_delivery c5stA 999 c5d = none ∧
    record_delivery c5stB 1 c5d = none ∧
    record_delivery c5stA 999 c5d = record_delivery c5stB 1 c5d := by decide

/-- Claim C5 amended witness at a concrete mismatch call and a concrete
toss call on a state whose innings already exist. -/
theorem C5_rejection_no_mutation_witness :
    record_delivery c5stA 999 c5d = none ∧ update_match_toss c5stA 1 c5td = none :=
  ⟨(C5_rejection_no_mutation c5stA 999 c5d c5td).1
      (Or.inr ⟨c5inn1, by decide, Or.inl (by decide)⟩),
   (C5_rejection_no_mutation c5stA 1 c5d c5td).2 (Or.inr (by decide))⟩

def c6s0 : MatchState := create_match 1 10 20
def c6td : TossData := ⟨10, TossDecision.BAT⟩
def c6s1 : MatchState := (update_match_toss c6s0 1 c6td).getD c6s0
def c6d : DeliveryCreate := ⟨2, 101, 201, 1, false, false, none⟩
def c6s2 : MatchState := (record_delivery c6s1 1 c6d).getD c6s1

/-- Claim C6 counterexample: from a reachable state a single delivery to
the second inning completes the match by chase while the first created
inning still has is_completed false. -/
theorem C6_completed_while_first_active_counterexample :
    Reachable c6s1 ∧
    record_delivery c6s1 1 c6d = some c6s2 ∧
    c6s2.mtch.status = MatchStatus.COMPLETED ∧
    c6s2.innings.map Inning.id = [1, 2] ∧
    c6s2.innings.map Inning.is_completed = [false, true] :=
  ⟨Reachable.toss c6s0 c6s1 1 c6td (Reachable.init 1 10 20 (by decide)) (by decide),
   by decide, by decide, by decide, by decide⟩

/-- Claim C6 amended witness at the concrete chase state. -/
theorem C6_completed_only_via_second_inning_witness :
    c6d.inning_id = 2 ∧
    c6s2.innings.map Inning.is_completed =
      [(⟨1, 1, 10, 20, 0, 0, 0, 0, false⟩ : Inning).is_completed, true] :=
  C6_completed_only_via_second_inning c6s1 c6s2
    ⟨1, 1, 10, 20, 0, 0, 0, 0, false⟩ ⟨2, 1, 20, 10, 0, 0, 0, 0, false⟩ 1 c6d
    (by decide) rfl rfl (by decide) (by decide)

def c7s0 : MatchState := create_match 2 10 20
def c7td : TossData := ⟨10, TossDecision.BAT⟩
def c7s1 : MatchState := (update_match_toss c7s0 2 c7td).getD c7s0
def c7d1 : DeliveryCreate := ⟨1, 101, 201, 0, false, false, none⟩
def c7d2 : DeliveryCreate := ⟨2, 102, 202, 0, false, false, none⟩
def c7s2 : MatchState := (record_delivery c7s1 2 c7d1).getD c7s1
def c7s3 : MatchState := (record_delivery c7s2 2 c7d2).getD c7s2

/-- Claim C7 counterexample: a reachable state holds delivery rows for
both innings while neither inning is completed, so both innings are
simultaneously active. -/
theorem C7_both_innings_active_counterexample :
    Reachable c7s3 ∧
    c7s3.deliveries.map Delivery.inning_id = [1, 2] ∧
    c7s3.innings.map Inning.id = [1, 2] ∧
    c7s3.innings.map Inning.is_completed = [false, false] :=
  ⟨Reachable.deliver c7s2 c7s3 2 c7d2
      (Reachable.deliver c7s1 c7s2 2 c7d1
        (Reachable.toss c7s0 c7s1 2 c7td (Reachable.init 2 10 20 (by decide))
          (by decide))
        (by decide))
      (by decide),
   by decide, by decide, by decide⟩

def c10s0 : MatchState := create_match 1 10 20
def c10td : TossData := ⟨99, TossDecision.BAT⟩
def c10out : MatchState := (update_match_toss c10s0 1 c10td).getD c10s0

/-- Claim C10 counterexample: the crud core accepts a toss winner that is
neither of the two teams, records it and creates both innings instead of
failing without mutation. -/
theorem C10_core_accepts_invalid_winner_counterexample :
    c10td.toss_winner_id ≠ c10s0.mtch.team1_id ∧
    c10td.toss_winner_id ≠ c10s0.mtch.team2_id ∧
    update_match_toss c10s0 1 c10td = some c10out ∧
    c10out.mtch.toss_winner_id = some 99 ∧
    c10out.innings.map Inning.batting_team_id = [99, 10] ∧
    c10out.innings.length = 2 := by decide

/-- Claim C10 amended witness at the concrete invalid toss winner. -/
theorem C10_no_internal_validation_witness :
    (∃ st', update_match_toss c10s0 1 c10td = some st' ∧
      st'.mtch.toss_winner_id = some c10td.toss_winner_id ∧
      st'.innings.length = 2) ∧
    record_toss c10s0 1 c10td = none := by
  have h := C10_no_internal_validation c10s0 1 c10td rfl rfl
  exact ⟨h.1, h.2 (by decide) (by decide)⟩

end Cric

namespace Cric

def w1a : Inning := ⟨1, 1, 10, 20, 150, 3, 20, 0, true⟩
def w1b : Inning := ⟨2, 1, 20, 10, 150, 4, 12, 3, false⟩
def w1st : MatchState :=
  ⟨⟨1, 10, 20, MatchStatus.LIVE, some 10, some TossDecision.BAT, none⟩,
   [w1a, w1b], []⟩
def w1d : DeliveryCreate := ⟨2, 101, 201, 1, false, false, none⟩
def w1out : MatchState := (record_delivery w1st 1 w1d).getD w1st

/-- Claim C1 witness: a mid over chase past 150 with four wickets down. -/
theorem C1_chase_short_circuit_witness :
    w1out.innings = [w1a, { applyDeliveryCounters w1b w1d with is_completed := true }] ∧
    w1out.mtch.winner_id = some w1b.batting_team_id ∧
    w1out.mtch.status = MatchStatus.COMPLETED :=
  C1_chase_short_circuit w1st w1out w1a w1b 1 w1d rfl rfl rfl rfl (by decide) (by decide)

def w2a : Inning := ⟨1, 1, 10, 20, 150, 10, 19, 0, true⟩
def w2b : Inning := ⟨2, 1, 20, 10, 140, 6, 19, 5, false⟩
def w2st : MatchState :=
  ⟨⟨1, 10, 20, MatchStatus.LIVE, some 10, some TossDecision.BAT, none⟩,
   [w2a, w2b], []⟩
def w2d : DeliveryCreate := ⟨2, 101, 201, 0, false, false, none⟩
def w2out : MatchState := (record_delivery w2st 1 w2d).getD w2st

/-- Claim C2 witness: the final legal ball of the twentieth over with the
chasing side short of the target. -/
theorem C2_natural_completion_outcomes_witness :
    w2out.mtch.status = MatchStatus.COMPLETED ∧
    (w2a.total_runs < (applyDeliveryCounters w2b w2d).total_runs →
      w2out.mtch.winner_id = some w2b.batting_team_id) ∧
    ((applyDeliveryCounters w2b w2d).total_runs < w2a.total_runs →
      w2out.mtch.winner_id = some w2a.batting_team_id) ∧
    ((applyDeliveryCounters w2b w2d).total_runs = w2a.total_runs →
      w2out.mtch.winner_id = none) :=
  C2_natural_completion_outcomes w2st w2out w2a w2b 1 w2d rfl rfl rfl rfl rfl rfl
    (by decide) (by decide)

def w3st : MatchState := create_match 1 10 20
def w3td : TossData := ⟨10, TossDecision.BAT⟩
def w3out : MatchState := (update_match_toss w3st 1 w3td).getD w3st

/-- Claim C3 witness: toss winner 10 elects to bat. -/
theorem C3_toss_creates_two_innings_witness :
    w3out.innings.map Inning.batting_team_id = [10, 20] ∧
    w3out.innings.map Inning.bowling_team_id = [20, 10] ∧
    w3out.innings.map Inning.is_completed = [false, false] := by
  have h := C3_toss_creates_two_innings w3st w3out 1 w3td (by decide)
    (Or.inl (by decide)) (by decide)
  rw [h.1]
  exact ⟨by decide, by decide, by decide⟩

def w4s0 : MatchState := create_match 3 10 20
def w4td : TossData := ⟨10, TossDecision.BAT⟩
def w4s1 : MatchState := (update_match_toss w4s0 3 w4td).getD w4s0
def w4d : DeliveryCreate := ⟨1, 101, 201, 0, false, false, none⟩
def w4s2 : MatchState := (record_delivery w4s1 3 w4d).getD w4s1
def w4i : Inning := ⟨1, 3, 10, 20, 0, 0, 0, 0, false⟩
def w4j : Inning := ⟨1, 3, 10, 20, 0, 0, 0, 1, false⟩

/-- Claim C4 witness: the first legal ball of a fresh inning. -/
theorem C4_ball_over_accounting_witness :
    w4j.balls_bowled = 1 ∧ w4j.overs_bowled = 0 := by
  have h := C4_ball_over_accounting w4s1 w4s2 3 w4d w4i w4j
    (Reachable.toss w4s0 w4s1 3 w4td (Reachable.init 3 10 20 (by decide)) (by decide))
    (by decide) (by decide) (by decide)
  have h2 := h.2.2.1 rfl (by decide)
  exact ⟨by rw [h2.1]; decide, by rw [h2.2]; decide⟩

def w8s0 : MatchState := create_match 4 10 20
def w8td : TossData := ⟨10, TossDecision.BAT⟩
def w8s1 : MatchState := (update_match_toss w8s0 4 w8td).getD w8s0
def w8d : DeliveryCreate := ⟨1, 101, 201, 4, false, true, none⟩
def w8s2 : MatchState := (record_delivery w8s1 4 w8d).getD w8s1
def w8i : Inning := ⟨1, 4, 10, 20, 0, 0, 0, 0, false⟩
def w8j : Inning := ⟨1, 4, 10, 20, 5, 0, 0, 0, false⟩

/-- Claim C8 witness: a wide worth four runs adds five to the total. -/
theorem C8_total_runs_delta_witness :
    w8j.total_runs = 5 ∧ w8i.total_runs ≤ w8j.total_runs := by
  have h := C8_total_runs_delta w8s1 w8s2 4 w8d w8i w8j
    (Reachable.toss w8s0 w8s1 4 w8td (Reachable.init 4 10 20 (by decide)) (by decide))
    (by decide) (by decide) (by decide)
  exact ⟨by rw [h.1]; decide, h.2 (by decide)⟩

def w9s0 : MatchState := create_match 5 10 20
def w9td : TossData := ⟨10, TossDecision.BAT⟩
def w9s1 : MatchState := (update_match_toss w9s0 5 w9td).getD w9s0
def w9i : Inning := ⟨1, 5, 10, 20, 0, 0, 0, 0, false⟩

/-- Claim C9 witness at the freshly created first inning. -/
theorem C9_wickets_bounded_witness : w9i.wickets ≤ 10 :=
  (C9_wickets_bounded w9s1
    (Reachable.toss w9s0 w9s1 5 w9td (Reachable.init 5 10 20 (by decide)) (by decide))
    w9i (by decide)).1

end Cric

namespace Cric

def w7s0 : MatchState := create_match 7 10 20
def w7td : TossData := ⟨10, TossDecision.BAT⟩
def w7s1 : MatchState := (update_match_toss w7s0 7 w7td).getD w7s0
def w7dw : DeliveryCreate := ⟨1, 101, 201, 0, true, false, none⟩
def w7step (s : MatchState) : MatchState := (record_delivery s 7 w7dw).getD s
def w7s2 : MatchState := w7step w7s1
def w7s3 : MatchState := w7step w7s2
def w7s4 : MatchState := w7step w7s3
def w7s5 : MatchState := w7step w7s4
def w7s6 : MatchState := w7step w7s5
def w7s7 : MatchState := w7step w7s6
def w7s8 : MatchState := w7step w7s7
def w7s9 : MatchState := w7step w7s8
def w7s10 : MatchState := w7step w7s9
def w7s11 : MatchState := w7step w7s10
def w7d2 : DeliveryCreate := ⟨2, 102, 202, 0, false, false, none⟩
def w7fin : MatchState := (record_delivery w7s11 7 w7d2).getD w7s11

/-- Claim C7 amended witness: ten wickets complete the first inning under
the ordering discipline, then one delivery to the second inning leaves the
first inning completed. -/
theorem C7_ordered_discipline_invariant_witness :
    (⟨1, 7, 10, 20, 0, 10, 1, 4, true⟩ : Inning).is_completed = true :=
  C7_ordered_discipline_invariant w7fin
    (ReachableOrdered.deliver w7s11 w7fin 7 w7d2
      (ReachableOrdered.deliver w7s10 w7s11 7 w7dw
        (ReachableOrdered.deliver w7s9 w7s10 7 w7dw
          (ReachableOrdered.deliver w7s8 w7s9 7 w7dw
            (ReachableOrdered.deliver w7s7 w7s8 7 w7dw
              (ReachableOrdered.deliver w7s6 w7s7 7 w7dw
                (ReachableOrdered.deliver w7s5 w7s6 7 w7dw
                  (ReachableOrdered.deliver w7s4 w7s5 7 w7dw
                    (ReachableOrdered.deliver w7s3 w7s4 7 w7dw
                      (ReachableOrdered.deliver w7s2 w7s3 7 w7dw
                        (ReachableOrdered.deliver w7s1 w7s2 7 w7dw
                          (ReachableOrdered.toss w7s0 w7s1 7 w7td
                            (ReachableOrdered.init 7 10 20 (by decide)) (by decide))
                          (by decide) (by decide))
                        (by decide) (by decide))
                      (by decide) (by decide))
                    (by decide) (by decide))
                  (by decide) (by decide))
                (by decide) (by decide))
              (by decide) (by decide))
            (by decide) (by decide))
          (by decide) (by decide))
        (by decide) (by decide))
      (by decide) (by decide))
    ⟨1, 7, 10, 20, 0, 10, 1, 4, true⟩ ⟨2, 7, 20, 10, 0, 0, 0, 1, false⟩
    (by decide) (by decide)

end Cric
